import Mathlib

/-!
Shallow embedding of the LTI 1.3 registration overlay state store
(`ui/features/lti_registrations/manage/lti_1p3_registration_form/Lti1p3RegistrationOverlayState.ts`)
from the canvas-lms client.

TypeScript optionality (`field?: T`, `Partial<{...}>`) is modelled with `Option`.
The branded string types `LtiScope`, `LtiPlacement`, `LtiPrivacyLevel` and
`LtiMessageType` are modelled as `String`.  A TypeScript
`Record<LtiPlacement, V>` built by repeated `acc[key] = v` assignments is
modelled as an association list together with `recordInsert` (overwrite the
first binding of the key in place, else append) and `recordGet` (first
binding wins), which matches JavaScript object-key semantics for string keys
that are not array indices.
-/

namespace CanvasLti

/-- `LtiScope` is a branded string type in the source. -/
abbrev LtiScope := String

/-- `LtiPlacement` is a branded string type in the source. -/
abbrev LtiPlacement := String

/-- `LtiPrivacyLevel` is a branded string type in the source. -/
abbrev LtiPrivacyLevel := String

/-- `LtiMessageType` is a branded string type in the source. -/
abbrev LtiMessageType := String

/-- The two values of the `JwkMethod` union type
`'public_jwk_url' | 'public_jwk'` in `launchSettings`. -/
inductive JwkMethodValue where
  | public_jwk_url
  | public_jwk
deriving DecidableEq

/-- The `launchSettings` section of `Lti1p3RegistrationOverlayState`
(a `Partial`, so every field is optional). -/
structure LaunchSettings where
  redirectURIs : Option String := none
  targetLinkURI : Option String := none
  openIDConnectInitiationURL : Option String := none
  JwkMethod : Option JwkMethodValue := none
  JwkURL : Option String := none
  Jwk : Option String := none
  domain : Option String := none
  customFields : Option String := none
deriving DecidableEq

/-- The `permissions` section. -/
structure Permissions where
  scopes : Option (List LtiScope) := none
deriving DecidableEq

/-- The `data_sharing` section. -/
structure DataSharing where
  privacy_level : Option LtiPrivacyLevel := none
deriving DecidableEq

/-- The `placements` section. -/
structure Placements where
  placements : Option (List LtiPlacement) := none
  courseNavigationDefaultDisabled : Option Bool := none
deriving DecidableEq

/-- One entry of `override_uris.placements` (both fields optional in the
state type). -/
structure OverrideUriEntry where
  message_type : Option LtiMessageType := none
  uri : Option String := none
deriving DecidableEq

/-- The `override_uris` section: a `Record<LtiPlacement, …>` modelled as an
association list. -/
structure OverrideUris where
  placements : List (LtiPlacement × OverrideUriEntry) := []
deriving DecidableEq

/-- One entry of `naming.placements`. -/
structure NamingEntry where
  name : Option String := none
deriving DecidableEq

/-- The `naming` section. -/
structure Naming where
  nickname : Option String := none
  description : Option String := none
  notes : Option String := none
  placements : List (LtiPlacement × NamingEntry) := []
deriving DecidableEq

/-- One entry of `icons.placements`. -/
structure IconEntry where
  icon_url : Option String := none
deriving DecidableEq

/-- The `icons` section. -/
structure Icons where
  placements : List (LtiPlacement × IconEntry) := []
deriving DecidableEq

/-- The overlay configuration snapshot `Lti1p3RegistrationOverlayState`. -/
structure Lti1p3RegistrationOverlayState where
  launchSettings : LaunchSettings
  permissions : Permissions
  data_sharing : DataSharing
  placements : Placements
  override_uris : OverrideUris
  naming : Naming
  icons : Icons
deriving DecidableEq

/-- One placement record of the input `InternalLtiConfiguration`.
Field optionality follows the code's use (`p.message_type ?? …`,
`p.url ?? …`, `p.text ?? …`, `p.default === 'disabled'`, `p.icon_url`)
and the spec's description of a placement record: "placement kind,
optional message type, optional URL, optional display text, optional
default-disabled flag, optional icon URL".  The `default` flag carries
the string `"disabled"` when set. -/
structure PlacementRecord where
  placement : LtiPlacement
  message_type : Option LtiMessageType := none
  url : Option String := none
  text : Option String := none
  default : Option String := none
  icon_url : Option String := none
deriving DecidableEq

/-- The input base document `InternalLtiConfiguration` (an imported type;
fields follow the code's reads and the spec §4.1's enumeration: redirect
URIs (optional list), target link URI, OIDC initiation URL, optional
public-key URL, optional public-key literal, optional domain, optional
custom-fields mapping, scopes, privacy level, title, placement records).
The JSON serialization of the structured public key is abstracted: the
`public_jwk` field carries its textual encoding directly.  The
custom-fields mapping is carried as an association list in its own
iteration order. -/
structure InternalLtiConfiguration where
  redirect_uris : Option (List String) := none
  target_link_uri : String
  oidc_initiation_url : String
  public_jwk_url : Option String := none
  public_jwk : Option String := none
  domain : Option String := none
  custom_fields : Option (List (String × String)) := none
  scopes : List LtiScope := []
  privacy_level : Option LtiPrivacyLevel := none
  title : String
  placements : List PlacementRecord := []
deriving DecidableEq

/-- JavaScript object assignment `acc[k] = v` on a string-keyed record:
replace the (first) binding of `k` in place when present, else append. -/
def recordInsert {α : Type} : List (String × α) → String → α → List (String × α)
  | [], k, v => [(k, v)]
  | (k', v') :: t, k, v =>
      if k' = k then (k, v) :: t else (k', v') :: recordInsert t k v

/-- JavaScript record lookup `acc[k]`: the first binding of `k`, if any. -/
def recordGet {α : Type} : List (String × α) → String → Option α
  | [], _ => none
  | (k', v') :: t, k => if k' = k then some v' else recordGet t k

/-- JavaScript truthiness of an optional string: `undefined` and the empty
string are falsy, every other string is truthy. -/
def truthyStr : Option String → Bool
  | none => false
  | some s => !s.isEmpty

/-- The `override_uris` entry built for a placement record `p` by the
initializer: `{message_type: p.message_type ?? 'LtiResourceLinkRequest',
uri: p.url ?? internalConfig.target_link_uri}`. -/
def overrideEntryFor (internalConfig : InternalLtiConfiguration)
    (p : PlacementRecord) : OverrideUriEntry :=
  { message_type := some (p.message_type.getD "LtiResourceLinkRequest")
    uri := some (p.url.getD internalConfig.target_link_uri) }

/-- The `naming.placements` entry built for a placement record `p`:
`{name: p.text ?? internalConfig.title}`. -/
def namingEntryFor (internalConfig : InternalLtiConfiguration)
    (p : PlacementRecord) : NamingEntry :=
  { name := some (p.text.getD internalConfig.title) }

/-- The `icons.placements` entry built for a placement record `p`:
`{icon_url: p.icon_url}`. -/
def iconEntryFor (p : PlacementRecord) : IconEntry :=
  { icon_url := p.icon_url }

/-- `initialOverlayStateFromInternalConfig`: derive the initial overlay
snapshot from the base document.

* `redirectURIs := internalConfig.redirect_uris?.join('\n')` — note that a
  present empty list joins to the empty string, not to `undefined`.
* `JwkMethod := internalConfig.public_jwk_url ? 'public_jwk_url' :
  'public_jwk'` — JavaScript truthiness, so a present empty string counts
  as absent.
* `customFields` reduces the custom-fields entries to the concatenation of
  `"key=value\n"` in iteration order.
* `courseNavigationDefaultDisabled` is
  `placements.find(p => p.placement === 'course_navigation')?.default ===
  'disabled'`.
* the three per-placement records are built by `reduce` with
  `acc[p.placement] = …` assignments over the placement list. -/
def initialOverlayStateFromInternalConfig
    (internalConfig : InternalLtiConfiguration) : Lti1p3RegistrationOverlayState :=
  { launchSettings :=
      { redirectURIs :=
          internalConfig.redirect_uris.map (fun uris => String.intercalate "\n" uris)
        targetLinkURI := some internalConfig.target_link_uri
        openIDConnectInitiationURL := some internalConfig.oidc_initiation_url
        JwkMethod :=
          some (if truthyStr internalConfig.public_jwk_url then
              JwkMethodValue.public_jwk_url
            else JwkMethodValue.public_jwk)
        JwkURL := internalConfig.public_jwk_url
        Jwk := internalConfig.public_jwk
        domain := internalConfig.domain
        customFields :=
          internalConfig.custom_fields.map (fun fields =>
            fields.foldl (fun acc kv => acc ++ kv.1 ++ "=" ++ kv.2 ++ "\n") "") }
    permissions := { scopes := some internalConfig.scopes }
    data_sharing := { privacy_level := internalConfig.privacy_level }
    placements :=
      { placements := some (internalConfig.placements.map (fun p => p.placement))
        courseNavigationDefaultDisabled :=
          some (((internalConfig.placements.find?
                (fun p => p.placement == "course_navigation")).bind
              (fun p => p.default)) == some "disabled") }
    override_uris :=
      { placements :=
          internalConfig.placements.foldl
            (fun acc p => recordInsert acc p.placement (overrideEntryFor internalConfig p))
            [] }
    naming :=
      { nickname := some internalConfig.title
        description := some ""
        notes := some ""
        placements :=
          internalConfig.placements.foldl
            (fun acc p => recordInsert acc p.placement (namingEntryFor internalConfig p))
            [] }
    icons :=
      { placements :=
          internalConfig.placements.foldl
            (fun acc p => recordInsert acc p.placement (iconEntryFor p))
            [] } }

/-- The `(key, value)` pairs passed to `updateLaunchSetting` by the eight
launch-settings setters of the store. -/
inductive LaunchSettingUpdate where
  | setRedirectURIs (redirectURIs : String)
  | setDefaultTargetLinkURI (targetLinkURI : String)
  | setOIDCInitiationURI (oidcInitiationURI : String)
  | setJwkMethod (jwkMethod : JwkMethodValue)
  | setJwkURL (jwkURL : String)
  | setJwk (jwk : String)
  | setDomain (domain : String)
  | setCustomFields (customFields : String)
deriving DecidableEq

/-- `updateLaunchSetting(key, value)`: spread the state, spread
`launchSettings`, and overwrite the one field named by the key. -/
def updateLaunchSetting (u : LaunchSettingUpdate)
    (state : Lti1p3RegistrationOverlayState) : Lti1p3RegistrationOverlayState :=
  { state with
    launchSettings :=
      match u with
      | .setRedirectURIs v => { state.launchSettings with redirectURIs := some v }
      | .setDefaultTargetLinkURI v => { state.launchSettings with targetLinkURI := some v }
      | .setOIDCInitiationURI v =>
          { state.launchSettings with openIDConnectInitiationURL := some v }
      | .setJwkMethod v => { state.launchSettings with JwkMethod := some v }
      | .setJwkURL v => { state.launchSettings with JwkURL := some v }
      | .setJwk v => { state.launchSettings with Jwk := some v }
      | .setDomain v => { state.launchSettings with domain := some v }
      | .setCustomFields v => { state.launchSettings with customFields := some v } }

/-- `toggleScope(scope)`: when `permissions.scopes` contains the scope
(`updatedScopes?.includes(scope)`, falsy when the list is absent), filter
out every occurrence; otherwise append it to the existing list
(`[...(updatedScopes ?? []), scope]`).  The result is always a present
list. -/
def toggleScope (scope : LtiScope)
    (state : Lti1p3RegistrationOverlayState) : Lti1p3RegistrationOverlayState :=
  let scopes := state.permissions.scopes.getD []
  let updatedScopes :=
    if scopes.contains scope then scopes.filter (fun s => s != scope)
    else scopes ++ [scope]
  { state with permissions := { state.permissions with scopes := some updatedScopes } }

/-- `setPrivacyLevel(privacyLevel)`: overwrite `data_sharing.privacy_level`. -/
def setPrivacyLevel (privacyLevel : LtiPrivacyLevel)
    (state : Lti1p3RegistrationOverlayState) : Lti1p3RegistrationOverlayState :=
  { state with
    data_sharing := { state.data_sharing with privacy_level := some privacyLevel } }

/-- `togglePlacement(placement)`: same shape as `toggleScope`, on
`placements.placements`; `courseNavigationDefaultDisabled` is carried over
by the spread. -/
def togglePlacement (placement : LtiPlacement)
    (state : Lti1p3RegistrationOverlayState) : Lti1p3RegistrationOverlayState :=
  let placementList := state.placements.placements.getD []
  let updatedPlacements :=
    if placementList.contains placement then
      placementList.filter (fun p => p != placement)
    else placementList ++ [placement]
  { state with
    placements := { state.placements with placements := some updatedPlacements } }

/-- `toggleCourseNavigationDefaultDisabled()`: the new flag is
`!state.placements.courseNavigationDefaultDisabled` — JavaScript negation
of an optional boolean, so an absent flag negates to `true`. -/
def toggleCourseNavigationDefaultDisabled
    (state : Lti1p3RegistrationOverlayState) : Lti1p3RegistrationOverlayState :=
  { state with
    placements :=
      { state.placements with
        courseNavigationDefaultDisabled :=
          some (!(state.placements.courseNavigationDefaultDisabled.getD false)) } }

/-- The twelve mutator actions exposed by the store
(`Lti1p3RegistrationOverlayActions`): the eight launch-settings setters,
`toggleScope`, `setPrivacyLevel`, `togglePlacement` and
`toggleCourseNavigationDefaultDisabled`. -/
inductive Mutator where
  | launch (u : LaunchSettingUpdate)
  | toggleScope (scope : LtiScope)
  | setPrivacyLevel (privacyLevel : LtiPrivacyLevel)
  | togglePlacement (placement : LtiPlacement)
  | toggleCourseNavigationDefaultDisabled
deriving DecidableEq

/-- Apply one mutator action to a snapshot. -/
def applyMutator : Mutator → Lti1p3RegistrationOverlayState → Lti1p3RegistrationOverlayState
  | .launch u, state => updateLaunchSetting u state
  | .toggleScope scope, state => toggleScope scope state
  | .setPrivacyLevel p, state => setPrivacyLevel p state
  | .togglePlacement p, state => togglePlacement p state
  | .toggleCourseNavigationDefaultDisabled, state =>
      toggleCourseNavigationDefaultDisabled state

/-- The seven top-level sections of a snapshot. -/
inductive StateSection where
  | launchSettings
  | permissions
  | data_sharing
  | placements
  | override_uris
  | naming
  | icons
deriving DecidableEq

/-- The section a mutator targets. -/
def targetSection : Mutator → StateSection
  | .launch _ => .launchSettings
  | .toggleScope _ => .permissions
  | .setPrivacyLevel _ => .data_sharing
  | .togglePlacement _ => .placements
  | .toggleCourseNavigationDefaultDisabled => .placements

/-- `agreesExcept sec s t`: every top-level section of `t` other than `sec`
is the very same object as in `s` (structural sharing: the spreads copy
the section references unchanged). -/
def agreesExcept : StateSection → Lti1p3RegistrationOverlayState →
    Lti1p3RegistrationOverlayState → Prop
  | .launchSettings, s, t =>
      t.permissions = s.permissions ∧ t.data_sharing = s.data_sharing ∧
      t.placements = s.placements ∧ t.override_uris = s.override_uris ∧
      t.naming = s.naming ∧ t.icons = s.icons
  | .permissions, s, t =>
      t.launchSettings = s.launchSettings ∧ t.data_sharing = s.data_sharing ∧
      t.placements = s.placements ∧ t.override_uris = s.override_uris ∧
      t.naming = s.naming ∧ t.icons = s.icons
  | .data_sharing, s, t =>
      t.launchSettings = s.launchSettings ∧ t.permissions = s.permissions ∧
      t.placements = s.placements ∧ t.override_uris = s.override_uris ∧
      t.naming = s.naming ∧ t.icons = s.icons
  | .placements, s, t =>
      t.launchSettings = s.launchSettings ∧ t.permissions = s.permissions ∧
      t.data_sharing = s.data_sharing ∧ t.override_uris = s.override_uris ∧
      t.naming = s.naming ∧ t.icons = s.icons
  | .override_uris, s, t =>
      t.launchSettings = s.launchSettings ∧ t.permissions = s.permissions ∧
      t.data_sharing = s.data_sharing ∧ t.placements = s.placements ∧
      t.naming = s.naming ∧ t.icons = s.icons
  | .naming, s, t =>
      t.launchSettings = s.launchSettings ∧ t.permissions = s.permissions ∧
      t.data_sharing = s.data_sharing ∧ t.placements = s.placements ∧
      t.override_uris = s.override_uris ∧ t.icons = s.icons
  | .icons, s, t =>
      t.launchSettings = s.launchSettings ∧ t.permissions = s.permissions ∧
      t.data_sharing = s.data_sharing ∧ t.placements = s.placements ∧
      t.override_uris = s.override_uris ∧ t.naming = s.naming

/-- Duplicate-freeness of the two toggled collections, when present. -/
def dupFreeInv (state : Lti1p3RegistrationOverlayState) : Prop :=
  (∀ l, state.permissions.scopes = some l → l.Nodup) ∧
  (∀ l, state.placements.placements = some l → l.Nodup)

/-! ### Concrete fixtures used to instantiate and to refute claims -/

/-- A snapshot in which every optional field is absent and every record is
empty (a legal value of the state type). -/
def emptyOverlayState : Lti1p3RegistrationOverlayState :=
  { launchSettings := {}
    permissions := {}
    data_sharing := {}
    placements := {}
    override_uris := {}
    naming := {}
    icons := {} }

/-- A snapshot in which the toggled collections and the course-navigation
flag are all present. -/
def sampleOverlayState : Lti1p3RegistrationOverlayState :=
  { launchSettings := { targetLinkURI := some "https://tool.example/launch" }
    permissions := { scopes := some ["scope_a", "scope_b"] }
    data_sharing := { privacy_level := some "public" }
    placements :=
      { placements := some ["course_navigation"]
        courseNavigationDefaultDisabled := some false }
    override_uris := {}
    naming := { nickname := some "Tool" }
    icons := {} }

/-- A base document whose redirect-URI list is present but empty. -/
def emptyRedirectConfig : InternalLtiConfiguration :=
  { redirect_uris := some []
    target_link_uri := "https://tool.example/launch"
    oidc_initiation_url := "https://tool.example/init"
    title := "Tool" }

/-- A base document whose public-key URL is present but is the empty
string. -/
def emptyJwkUrlConfig : InternalLtiConfiguration :=
  { target_link_uri := "https://tool.example/launch"
    oidc_initiation_url := "https://tool.example/init"
    public_jwk_url := some ""
    public_jwk := some "{}"
    title := "Tool" }

/-- A base document carrying the spec's worked examples: two redirect URIs
and the custom-fields mapping `{"a":"1","b":"2"}`. -/
def exampleConfig : InternalLtiConfiguration :=
  { redirect_uris := some ["https://x.com/a", "https://x.com/b"]
    target_link_uri := "https://tool.example/launch"
    oidc_initiation_url := "https://tool.example/init"
    public_jwk_url := some "https://tool.example/jwks"
    custom_fields := some [("a", "1"), ("b", "2")]
    scopes := ["scope_a"]
    title := "Tool"
    placements := [{ placement := "course_navigation" }] }

/-- The first of two `course_navigation` records of
`dupPlacementConfig`: message type, URL, text and icon present, default
`'enabled'`. -/
def dupRecordFirst : PlacementRecord :=
  { placement := "course_navigation"
    message_type := some "LtiDeepLinkingRequest"
    url := some "https://tool.example/one"
    text := some "First"
    default := some "enabled"
    icon_url := some "https://tool.example/icon1.png" }

/-- The second of two `course_navigation` records of
`dupPlacementConfig`: every optional field absent except default
`'disabled'`. -/
def dupRecordSecond : PlacementRecord :=
  { placement := "course_navigation"
    default := some "disabled" }

/-- A base document with two placement records of the same kind
`course_navigation`. -/
def dupPlacementConfig : InternalLtiConfiguration :=
  { target_link_uri := "https://tool.example/launch"
    oidc_initiation_url := "https://tool.example/init"
    title := "Tool"
    placements := [dupRecordFirst, dupRecordSecond] }

/-! ### Helper lemmas on the record operations -/

theorem recordGet_recordInsert_self {α : Type} (l : List (String × α)) (k : String) (v : α) :
    recordGet (recordInsert l k v) k = some v := by
  induction l with
  | nil => simp [recordInsert, recordGet]
  | cons hd t ih =>
      by_cases h : hd.1 = k
      · simp [recordInsert, recordGet, h]
      · simp [recordInsert, recordGet, h, ih]

theorem recordGet_recordInsert_ne {α : Type} (l : List (String × α)) (k k' : String) (v : α)
    (h : k' ≠ k) : recordGet (recordInsert l k v) k' = recordGet l k' := by
  have hne : ¬(k = k') := fun hh => h hh.symm
  induction l with
  | nil => simp [recordInsert, recordGet, hne]
  | cons hd t ih =>
      obtain ⟨a, b⟩ := hd
      by_cases hk : a = k
      · subst hk
        simp [recordInsert, recordGet, hne]
      · by_cases hk' : a = k'
        · simp [recordInsert, recordGet, hk, hk', h]
        · simp [recordInsert, recordGet, hk, hk', ih]

/-- Lookup after folding `acc[p.placement] = f p` over a list of placement
records: the last record of the given kind wins; with no such record the
original accumulator answers. -/
theorem recordGet_foldl_recordInsert {α : Type} (f : PlacementRecord → α)
    (l : List PlacementRecord) (acc : List (String × α)) (k : String) :
    recordGet (l.foldl (fun a p => recordInsert a p.placement (f p)) acc) k =
      ((l.reverse.find? (fun p => p.placement == k)).map f).or (recordGet acc k) := by
  induction l generalizing acc with
  | nil => simp
  | cons p t ih =>
      simp only [List.foldl_cons, List.reverse_cons, List.find?_append]
      rw [ih]
      cases hfind : t.reverse.find? (fun p => p.placement == k) with
      | some r => simp [Option.or]
      | none =>
          by_cases hk : p.placement = k
          · subst hk
            simp [List.find?, recordGet_recordInsert_self, Option.or]
          · have hb : (p.placement == k) = false := by simp [hk]
            rw [recordGet_recordInsert_ne acc p.placement k (f p) (Ne.symm hk)]
            simp [List.find?, hb, Option.or]

/-- Shifting an initial segment out of a string left fold of appends. -/
theorem string_foldl_append_assoc (t : List String) (s x : String) :
    t.foldl (fun r y => r ++ y) (s ++ x) = s ++ t.foldl (fun r y => r ++ y) x := by
  induction t generalizing x with
  | nil => simp
  | cons y t ih =>
      simp only [List.foldl_cons, String.append_assoc]
      exact ih (x ++ y)

/-- `String.join` peels off the head. -/
theorem string_join_cons (x : String) (t : List String) :
    String.join (x :: t) = x ++ String.join t := by
  have h1 : ("" : String) ++ x = x ++ "" := by simp
  simp only [String.join, List.foldl_cons, h1]
  exact string_foldl_append_assoc t x ""

/-- The custom-fields reduce: folding `acc + key + "=" + value + "\n"` over
the entries equals the initial string followed by the join of the
`"key=value\n"` lines. -/
theorem custom_fields_foldl (l : List (String × String)) (s : String) :
    l.foldl (fun acc kv => acc ++ kv.1 ++ "=" ++ kv.2 ++ "\n") s =
      s ++ String.join (l.map (fun kv => kv.1 ++ "=" ++ kv.2 ++ "\n")) := by
  induction l generalizing s with
  | nil => simp [String.join]
  | cons x t ih =>
      simp only [List.foldl_cons, List.map_cons, ih, string_join_cons]
      simp [String.append_assoc]

/-- Filtering out an element that does not occur leaves the list unchanged. -/
theorem filter_bne_eq_self (l : List String) (a : String) (h : a ∉ l) :
    l.filter (fun s => s != a) = l := by
  rw [List.filter_eq_self]
  intro b hb
  simp only [bne_iff_ne, ne_eq, decide_eq_true_eq]
  rintro rfl; exact h hb

/-! ### Claim theorems -/

/-- **C2.** For every snapshot and every mutator, the returned snapshot
differs from the input only in the one section the mutator targets; every
other top-level section of the new snapshot is the very same object as in
the prior snapshot (structural sharing through the object spreads). -/
theorem mutator_frame (m : Mutator) (state : Lti1p3RegistrationOverlayState) :
    agreesExcept (targetSection m) state (applyMutator m state) := by
  cases m with
  | launch u => exact ⟨rfl, rfl, rfl, rfl, rfl, rfl⟩
  | toggleScope scope => exact ⟨rfl, rfl, rfl, rfl, rfl, rfl⟩
  | setPrivacyLevel p => exact ⟨rfl, rfl, rfl, rfl, rfl, rfl⟩
  | togglePlacement p => exact ⟨rfl, rfl, rfl, rfl, rfl, rfl⟩
  | toggleCourseNavigationDefaultDisabled => exact ⟨rfl, rfl, rfl, rfl, rfl, rfl⟩

/-- **C6.** `toggleScope` removes the scope from `permissions.scopes` when
it is present and appends it otherwise; an absent scopes list is treated as
the empty list, so toggling yields the one-element list and the operation
does not fail (the result is always a present list). -/
theorem toggleScope_correct (state : Lti1p3RegistrationOverlayState) (scope : LtiScope) :
    (state.permissions.scopes = none →
      (toggleScope scope state).permissions.scopes = some [scope]) ∧
    (∀ l, state.permissions.scopes = some l → scope ∈ l →
      (toggleScope scope state).permissions.scopes
        = some (l.filter (fun s => s != scope))) ∧
    (∀ l, state.permissions.scopes = some l → scope ∉ l →
      (toggleScope scope state).permissions.scopes = some (l ++ [scope])) := by
  refine ⟨fun h => ?_, fun l h hmem => ?_, fun l h hmem => ?_⟩
  · simp [toggleScope, h]
  · simp [toggleScope, h, hmem]
  · simp [toggleScope, h, hmem]

/-- Witness for C6: toggling on an absent list creates a singleton, toggling
a present scope removes it, toggling an absent scope appends it. -/
theorem toggleScope_correct_witness :
    (toggleScope "scope_c" emptyOverlayState).permissions.scopes = some ["scope_c"] ∧
    (toggleScope "scope_a" sampleOverlayState).permissions.scopes = some ["scope_b"] ∧
    (toggleScope "scope_c" sampleOverlayState).permissions.scopes
      = some ["scope_a", "scope_b", "scope_c"] := by
  refine ⟨(toggleScope_correct emptyOverlayState "scope_c").1 rfl, ?_, ?_⟩
  · have h := (toggleScope_correct sampleOverlayState "scope_a").2.1
      ["scope_a", "scope_b"] rfl (by decide)
    exact h.trans (by decide)
  · have h := (toggleScope_correct sampleOverlayState "scope_c").2.2
      ["scope_a", "scope_b"] rfl (by decide)
    exact h.trans (by decide)

/-- **C7.** Every mutator preserves duplicate-freeness of
`permissions.scopes` and `placements.placements` (when present). -/
theorem mutator_preserves_dupFree (m : Mutator) (state : Lti1p3RegistrationOverlayState)
    (h : dupFreeInv state) : dupFreeInv (applyMutator m state) := by
  obtain ⟨hs, hp⟩ := h
  have hs0 : (state.permissions.scopes.getD []).Nodup := by
    cases hc : state.permissions.scopes with
    | none => simp
    | some l0 => simpa using hs l0 hc
  have hp0 : (state.placements.placements.getD []).Nodup := by
    cases hc : state.placements.placements with
    | none => simp
    | some l0 => simpa using hp l0 hc
  cases m with
  | launch u => exact ⟨hs, hp⟩
  | setPrivacyLevel p => exact ⟨hs, hp⟩
  | toggleCourseNavigationDefaultDisabled => exact ⟨hs, hp⟩
  | toggleScope scope =>
      refine ⟨fun l hl => ?_, fun l hl => hp l hl⟩
      simp only [applyMutator, toggleScope, Option.some.injEq] at hl
      subst hl
      by_cases hmem : scope ∈ state.permissions.scopes.getD []
      · have hc : (state.permissions.scopes.getD []).contains scope = true := by
          simpa using hmem
        rw [if_pos hc]
        exact hs0.filter _
      · have hc : ¬((state.permissions.scopes.getD []).contains scope = true) := by
          simpa using hmem
        rw [if_neg hc]
        simp only [List.nodup_append]
        refine ⟨hs0, ?_⟩
        simpa using hmem
  | togglePlacement placement =>
      refine ⟨fun l hl => hs l hl, fun l hl => ?_⟩
      simp only [applyMutator, togglePlacement, Option.some.injEq] at hl
      subst hl
      by_cases hmem : placement ∈ state.placements.placements.getD []
      · have hc : (state.placements.placements.getD []).contains placement = true := by
          simpa using hmem
        rw [if_pos hc]
        exact hp0.filter _
      · have hc : ¬((state.placements.placements.getD []).contains placement = true) := by
          simpa using hmem
        rw [if_neg hc]
        simp only [List.nodup_append]
        refine ⟨hp0, ?_⟩
        simpa using hmem

/-- Witness for C7: a toggle on the all-absent snapshot (whose collections
are vacuously duplicate-free) yields a duplicate-free snapshot. -/
theorem mutator_preserves_dupFree_witness :
    dupFreeInv (applyMutator (Mutator.toggleScope "scope_a") emptyOverlayState) :=
  mutator_preserves_dupFree (Mutator.toggleScope "scope_a") emptyOverlayState
    ⟨fun _ hl => (nomatch hl), fun _ hl => (nomatch hl)⟩

/-- **C1 counterexample.** Double-application of a toggle does not always
return the configuration to its original state: on a snapshot whose
course-navigation flag is absent, toggling the flag twice leaves it
`some false` (the code negates `undefined` to `true`); and on a snapshot
whose scopes list is `["scope_a", "scope_b"]`, toggling `"scope_a"` twice
yields `["scope_b", "scope_a"]` (remove-then-append changes the order). -/
theorem toggle_twice_cex :
    toggleCourseNavigationDefaultDisabled
        (toggleCourseNavigationDefaultDisabled emptyOverlayState) ≠ emptyOverlayState ∧
    toggleScope "scope_a" (toggleScope "scope_a" sampleOverlayState) ≠ sampleOverlayState :=
  ⟨by decide, by decide⟩

/-- **C1 amended.** On a snapshot in which the course-navigation flag and
the scopes and placements lists are present, double-application of
`toggleCourseNavigationDefaultDisabled` restores the snapshot exactly, and
double-application of `toggleScope` (resp. `togglePlacement`) restores a
snapshot that can differ from the original only in the order and
multiplicity of the toggled list: every other part is unchanged, the list
holds exactly the original elements, and when the toggled element was not
in the list the original snapshot is restored exactly. -/
theorem toggle_twice_amended (state : Lti1p3RegistrationOverlayState)
    (scope placement : String) (ls lp : List String) (b : Bool)
    (hs : state.permissions.scopes = some ls)
    (hp : state.placements.placements = some lp)
    (hb : state.placements.courseNavigationDefaultDisabled = some b) :
    toggleCourseNavigationDefaultDisabled
        (toggleCourseNavigationDefaultDisabled state) = state ∧
    (∃ ls', toggleScope scope (toggleScope scope state)
          = { state with permissions := { scopes := some ls' } } ∧
        (∀ x, x ∈ ls' ↔ x ∈ ls) ∧ (scope ∉ ls → ls' = ls)) ∧
    (∃ lp', togglePlacement placement (togglePlacement placement state)
          = { state with placements :=
                { state.placements with placements := some lp' } } ∧
        (∀ x, x ∈ lp' ↔ x ∈ lp) ∧ (placement ∉ lp → lp' = lp)) := by
  obtain ⟨lsS, ⟨scS⟩, dsS, ⟨plS, cndS⟩, ouS, nmS, icS⟩ := state
  simp only at hs hp hb
  subst hs hp hb
  refine ⟨?_, ?_, ?_⟩
  · simp [toggleCourseNavigationDefaultDisabled]
  · by_cases hmem : scope ∈ ls
    · refine ⟨ls.filter (fun s => s != scope) ++ [scope], ?_, ?_, ?_⟩
      · have hnot : scope ∉ ls.filter (fun s => s != scope) := by simp
        simp [toggleScope, hmem, hnot]
      · intro x
        simp only [List.mem_append, List.mem_filter, List.mem_singleton, bne_iff_ne,
          ne_eq, decide_eq_true_eq]
        constructor
        · rintro (⟨hx, _⟩ | rfl)
          · exact hx
          · exact hmem
        · intro hx
          by_cases hxs : x = scope
          · exact Or.inr hxs
          · exact Or.inl ⟨hx, hxs⟩
      · intro habs; exact absurd hmem habs
    · refine ⟨ls, ?_, fun x => Iff.rfl, fun _ => rfl⟩
      have hfilter : (ls ++ [scope]).filter (fun s => s != scope) = ls := by
        rw [List.filter_append, filter_bne_eq_self ls scope hmem]
        simp
      simp [toggleScope, hmem, hfilter]
  · by_cases hmem : placement ∈ lp
    · refine ⟨lp.filter (fun s => s != placement) ++ [placement], ?_, ?_, ?_⟩
      · have hnot : placement ∉ lp.filter (fun s => s != placement) := by simp
        simp [togglePlacement, hmem, hnot]
      · intro x
        simp only [List.mem_append, List.mem_filter, List.mem_singleton, bne_iff_ne,
          ne_eq, decide_eq_true_eq]
        constructor
        · rintro (⟨hx, _⟩ | rfl)
          · exact hx
          · exact hmem
        · intro hx
          by_cases hxs : x = placement
          · exact Or.inr hxs
          · exact Or.inl ⟨hx, hxs⟩
      · intro habs; exact absurd hmem habs
    · refine ⟨lp, ?_, fun x => Iff.rfl, fun _ => rfl⟩
      have hfilter : (lp ++ [placement]).filter (fun s => s != placement) = lp := by
        rw [List.filter_append, filter_bne_eq_self lp placement hmem]
        simp
      simp [togglePlacement, hmem, hfilter]

/-- Witness for C1 amended at `sampleOverlayState` (all three fields
present), toggling scope `"scope_a"` and placement `"account_navigation"`. -/
theorem toggle_twice_amended_witness :
    toggleCourseNavigationDefaultDisabled
        (toggleCourseNavigationDefaultDisabled sampleOverlayState) = sampleOverlayState ∧
    (∃ ls', toggleScope "scope_a" (toggleScope "scope_a" sampleOverlayState)
          = { sampleOverlayState with permissions := { scopes := some ls' } } ∧
        (∀ x, x ∈ ls' ↔ x ∈ (["scope_a", "scope_b"] : List String)) ∧
        ("scope_a" ∉ (["scope_a", "scope_b"] : List String) →
          ls' = ["scope_a", "scope_b"])) ∧
    (∃ lp', togglePlacement "account_navigation"
            (togglePlacement "account_navigation" sampleOverlayState)
          = { sampleOverlayState with placements :=
                { sampleOverlayState.placements with placements := some lp' } } ∧
        (∀ x, x ∈ lp' ↔ x ∈ (["course_navigation"] : List String)) ∧
        ("account_navigation" ∉ (["course_navigation"] : List String) →
          lp' = ["course_navigation"])) :=
  toggle_twice_amended sampleOverlayState "scope_a" "account_navigation"
    ["scope_a", "scope_b"] ["course_navigation"] false rfl rfl rfl

/-- **C3 counterexample.** A present but empty redirect-URI list does not
leave `launchSettings.redirectURIs` unset: `[].join('\n')` is the empty
string, so the field is set to `""`. -/
theorem redirectURIs_cex :
    emptyRedirectConfig.redirect_uris = some [] ∧
    (initialOverlayStateFromInternalConfig emptyRedirectConfig).launchSettings.redirectURIs
      = some "" :=
  ⟨rfl, by decide⟩

/-- **C3 amended.** The initializer sets `launchSettings.redirectURIs` to
the input redirect-URI list joined with newline separators whenever the
list is present — a present empty list yields the empty string — and
leaves the field unset exactly when the input list is absent. -/
theorem redirectURIs_amended (internalConfig : InternalLtiConfiguration) :
    (internalConfig.redirect_uris = none →
      (initialOverlayStateFromInternalConfig internalConfig).launchSettings.redirectURIs
        = none) ∧
    (∀ uris, internalConfig.redirect_uris = some uris →
      (initialOverlayStateFromInternalConfig internalConfig).launchSettings.redirectURIs
        = some (String.intercalate "\n" uris)) := by
  refine ⟨fun h => ?_, fun uris h => ?_⟩
  · simp [initialOverlayStateFromInternalConfig, h]
  · simp [initialOverlayStateFromInternalConfig, h]

/-- Witness for C3 amended at the spec's example: two redirect URIs join to
`"https://x.com/a\nhttps://x.com/b"`. -/
theorem redirectURIs_amended_witness :
    (initialOverlayStateFromInternalConfig exampleConfig).launchSettings.redirectURIs
      = some "https://x.com/a\nhttps://x.com/b" := by
  have h := (redirectURIs_amended exampleConfig).2
    ["https://x.com/a", "https://x.com/b"] rfl
  exact h.trans (by decide)

/-- **C4 counterexample.** A present public-key URL does not always select
`'public_jwk_url'`: the code tests JavaScript truthiness, so a present
empty-string URL (even together with a present literal key) selects
`'public_jwk'`. -/
theorem jwkMethod_cex :
    emptyJwkUrlConfig.public_jwk_url = some "" ∧
    (initialOverlayStateFromInternalConfig emptyJwkUrlConfig).launchSettings.JwkMethod
      = some JwkMethodValue.public_jwk :=
  ⟨rfl, by decide⟩

/-- **C4 amended.** The initializer sets `launchSettings.JwkMethod` to
`'public_jwk_url'` exactly when the document's public-key URL is present
and non-empty (JavaScript truthiness) — independently of whether a literal
public key is also present — and to `'public_jwk'` otherwise. -/
theorem jwkMethod_amended (internalConfig : InternalLtiConfiguration) :
    ((initialOverlayStateFromInternalConfig internalConfig).launchSettings.JwkMethod
        = some JwkMethodValue.public_jwk_url ↔
      ∃ s, internalConfig.public_jwk_url = some s ∧ s ≠ "") ∧
    ((initialOverlayStateFromInternalConfig internalConfig).launchSettings.JwkMethod
        = some JwkMethodValue.public_jwk ↔
      ¬∃ s, internalConfig.public_jwk_url = some s ∧ s ≠ "") ∧
    (∀ jwk, (initialOverlayStateFromInternalConfig
          { internalConfig with public_jwk := jwk }).launchSettings.JwkMethod
        = (initialOverlayStateFromInternalConfig internalConfig).launchSettings.JwkMethod) := by
  refine ⟨?_, ?_, fun jwk => rfl⟩ <;>
    cases hurl : internalConfig.public_jwk_url with
    | none => simp [initialOverlayStateFromInternalConfig, truthyStr, hurl]
    | some s =>
        by_cases hs : s = ""
        · subst hs
          have hemp : "".isEmpty = true := by decide
          simp [initialOverlayStateFromInternalConfig, truthyStr, hurl, hemp]
        · have hne : s.isEmpty = false := by
            cases hcs : s.isEmpty with
            | true => exact absurd ((String.isEmpty_iff s).mp hcs) hs
            | false => rfl
          simp [initialOverlayStateFromInternalConfig, truthyStr, hurl, hne, hs]

/-- **C5.** With a present custom-fields mapping, the initializer sets
`launchSettings.customFields` to the concatenation of `"key=value\n"` for
each entry, in the mapping's own iteration order with no reordering. -/
theorem customFields_correct (internalConfig : InternalLtiConfiguration)
    (entries : List (String × String))
    (h : internalConfig.custom_fields = some entries) :
    (initialOverlayStateFromInternalConfig internalConfig).launchSettings.customFields
      = some (String.join (entries.map (fun kv => kv.1 ++ "=" ++ kv.2 ++ "\n"))) := by
  simp [initialOverlayStateFromInternalConfig, h, custom_fields_foldl]

/-- Witness for C5 at the spec's example: the mapping
`[("a","1"), ("b","2")]` yields `"a=1\nb=2\n"`. -/
theorem customFields_correct_witness :
    (initialOverlayStateFromInternalConfig exampleConfig).launchSettings.customFields
      = some "a=1\nb=2\n" := by
  have h := customFields_correct exampleConfig [("a", "1"), ("b", "2")] rfl
  exact h.trans (by decide)

/-- **C8 counterexample.** The claim's "contains a placement record for
course_navigation whose default-disabled flag is set" is existential, but
the code consults only the FIRST matching record: `dupPlacementConfig`
contains a course-navigation record with `default = 'disabled'` (the
second one), yet the initializer sets the flag to `false` because the
first course-navigation record has `default = 'enabled'`. -/
theorem courseNavDisabled_cex :
    dupRecordSecond ∈ dupPlacementConfig.placements ∧
    dupRecordSecond.placement = "course_navigation" ∧
    dupRecordSecond.default = some "disabled" ∧
    (initialOverlayStateFromInternalConfig
        dupPlacementConfig).placements.courseNavigationDefaultDisabled = some false :=
  ⟨by decide, rfl, rfl, by decide⟩

/-- **C8 amended.** The initializer sets
`placements.courseNavigationDefaultDisabled` to true iff the FIRST
placement record for `"course_navigation"` in the document's list exists
and has its default flag equal to `'disabled'`; with no such record, or a
first such record whose flag is absent or not `'disabled'`, the field is
false. -/
theorem courseNavDisabled_amended (internalConfig : InternalLtiConfiguration) :
    ((initialOverlayStateFromInternalConfig
          internalConfig).placements.courseNavigationDefaultDisabled = some true ↔
      ∃ p, internalConfig.placements.find?
            (fun q => q.placement == "course_navigation") = some p ∧
        p.default = some "disabled") ∧
    ((initialOverlayStateFromInternalConfig
          internalConfig).placements.courseNavigationDefaultDisabled = some false ↔
      ¬∃ p, internalConfig.placements.find?
            (fun q => q.placement == "course_navigation") = some p ∧
        p.default = some "disabled") := by
  constructor <;>
    cases hf : internalConfig.placements.find?
        (fun q => q.placement == "course_navigation") with
    | none => simp [initialOverlayStateFromInternalConfig, hf]
    | some p =>
        cases hd : p.default with
        | none => simp [initialOverlayStateFromInternalConfig, hf, hd]
        | some d =>
            by_cases hdis : d = "disabled"
            · subst hdis
              simp [initialOverlayStateFromInternalConfig, hf, hd]
            · simp [initialOverlayStateFromInternalConfig, hf, hd, hdis]

/-- **C9 counterexample.** The override_uris entry for a placement kind does
not agree with EVERY record of that kind: `dupRecordFirst` is a record of
`dupPlacementConfig`, but the entry for its kind carries the second
record's defaulted message type and URI, not the first record's explicit
ones. -/
theorem overrideUris_cex :
    dupRecordFirst ∈ dupPlacementConfig.placements ∧
    recordGet (initialOverlayStateFromInternalConfig
          dupPlacementConfig).override_uris.placements dupRecordFirst.placement
      ≠ some (overrideEntryFor dupPlacementConfig dupRecordFirst) :=
  ⟨by decide, by decide⟩

/-- **C9 amended.** For every base document and every placement kind, the
override_uris entry for that kind is determined by the LAST record in the
document's list with that kind: message_type is that record's message
type, defaulting to `'LtiResourceLinkRequest'` when absent, and uri is
that record's URL, defaulting to the document's target link URI when
absent.  (For documents without duplicated kinds this is every record's
own data.) -/
theorem overrideUris_amended (internalConfig : InternalLtiConfiguration)
    (k : LtiPlacement) (p : PlacementRecord)
    (h : internalConfig.placements.reverse.find? (fun q => q.placement == k) = some p) :
    recordGet (initialOverlayStateFromInternalConfig
        internalConfig).override_uris.placements k
      = some (overrideEntryFor internalConfig p) := by
  simp [initialOverlayStateFromInternalConfig, recordGet_foldl_recordInsert, h, Option.or]

/-- Witness for C9 amended: in `dupPlacementConfig` the last
course-navigation record has no message type and no URL, so the entry
holds the canonical message type and the document's target link URI. -/
theorem overrideUris_amended_witness :
    recordGet (initialOverlayStateFromInternalConfig
        dupPlacementConfig).override_uris.placements "course_navigation"
      = some { message_type := some "LtiResourceLinkRequest"
               uri := some "https://tool.example/launch" } := by
  have h := overrideUris_amended dupPlacementConfig "course_navigation"
    dupRecordSecond (by decide)
  exact h.trans (by decide)

/-- **C10.** For every base document containing two or more placement
records with the same placement kind, the initializer's override_uris,
naming.placements, and icons.placements entries for that kind take their
values from the record that appears last in the input list (later records
overwrite earlier ones in the reduce). -/
theorem lastRecordWins (internalConfig : InternalLtiConfiguration)
    (k : LtiPlacement) (p : PlacementRecord)
    (_hdup : 2 ≤ (internalConfig.placements.filter (fun q => q.placement == k)).length)
    (h : internalConfig.placements.reverse.find? (fun q => q.placement == k) = some p) :
    recordGet (initialOverlayStateFromInternalConfig
        internalConfig).override_uris.placements k
      = some (overrideEntryFor internalConfig p) ∧
    recordGet (initialOverlayStateFromInternalConfig internalConfig).naming.placements k
      = some (namingEntryFor internalConfig p) ∧
    recordGet (initialOverlayStateFromInternalConfig internalConfig).icons.placements k
      = some (iconEntryFor p) := by
  refine ⟨?_, ?_, ?_⟩ <;>
    simp [initialOverlayStateFromInternalConfig, recordGet_foldl_recordInsert, h, Option.or]

/-- Witness for C10 at `dupPlacementConfig` (two course-navigation records):
all three per-placement entries come from the second record — defaulted
message type and URI, name defaulted to the document title, absent icon. -/
theorem lastRecordWins_witness :
    recordGet (initialOverlayStateFromInternalConfig
        dupPlacementConfig).override_uris.placements "course_navigation"
      = some (overrideEntryFor dupPlacementConfig dupRecordSecond) ∧
    recordGet (initialOverlayStateFromInternalConfig
        dupPlacementConfig).naming.placements "course_navigation"
      = some (namingEntryFor dupPlacementConfig dupRecordSecond) ∧
    recordGet (initialOverlayStateFromInternalConfig
        dupPlacementConfig).icons.placements "course_navigation"
      = some (iconEntryFor dupRecordSecond) :=
  lastRecordWins dupPlacementConfig "course_navigation" dupRecordSecond
    (by decide) (by decide)

end CanvasLti
